import Mathlib

/-!
Verification of the Dynamic-Input repository (wired32/Dynamic-Input).

The development shallowly embeds the editing/concurrency engine of the
repository: the data model of `src/packets.py`, the key handlers, the
debounce scheduler and the bind-key fast path of `DynamicInput.input` in
`src/dynamicio.py`, the completion render of `src/utils/completer.py`, the
asynchronous edit channel, and the legacy variant in `src/main.py`.
Terminal side effects are modelled as explicit lists of output operations;
the background-thread protocol around the `fetchInProgress` flag is
modelled as a small interleaved transition system.
-/

/-- Data model of `CompletionPacket` in `src/packets.py`: the completion
text, its display shade, and the length of the input buffer recorded when
the packet was built (the field is spelled `bufferlenght` in the source). -/
structure CompletionPacket where
  content : String
  shade : String
  bufferlenght : Nat
  deriving Repr, DecidableEq

/-- Terminal output operations emitted by the engine.  Each constructor
stands for one escape sequence or write that the source performs on stdout:
`clearToEnd` is ESC[K, `cursorBackDelete` is ESC[D ESC[P, `moveTo` is the
ESC[x;yH jump used by `_edit`, `moveLeft n` is ESC[nD, and `writeStyled`
is the rich-styled print used for completions. -/
inductive TermOp where
  | write (s : String)
  | writeStyled (shade s : String)
  | saveCursor
  | restoreCursor
  | clearToEnd
  | hideCursor
  | showCursor
  | cursorBackDelete
  | moveTo (row col : Nat)
  | moveLeft (n : Nat)
  deriving Repr, DecidableEq

/-- Embedding of `complete` in `src/utils/completer.py`: if the live buffer
is strictly longer than the length recorded in the packet the render is
aborted (no output); otherwise the completion is rendered as save cursor,
clear line, hide cursor, styled write, restore cursor, show cursor. -/
def complete (s : CompletionPacket) (buffer : List Char) : List TermOp :=
  if buffer.length > s.bufferlenght then []
  else
    [.saveCursor, .clearToEnd, .hideCursor, .writeStyled s.shade s.content,
     .restoreCursor, .showCursor]

/-- Embedding of the packet-building and render-decision part of
`DynamicInput._process_completion` in `src/dynamicio.py` (the
`fetchInProgress` protocol around it is modelled separately).  The thread
receives the live buffer by reference; `bufferAtFetch` is its contents when
the callback argument and the `len(buffer)` stamp are evaluated, and
`bufferAtApply` is its contents when `complete` runs.  The result is the
terminal output produced: nothing when `exitFlag` is set, otherwise the
output of `complete` on the stamped packet. -/
def processCompletionRender (bufferAtFetch : List Char) (shade : String)
    (call_to : String → String) (exitFlag : Bool) (bufferAtApply : List Char) :
    List TermOp :=
  let packet : CompletionPacket :=
    ⟨call_to (String.mk bufferAtFetch), shade, bufferAtFetch.length⟩
  if exitFlag then [] else complete packet bufferAtApply

/-- C1 counterexample: the fetch starts on buffer "ex"; a backspace leaves
the buffer at "e" (a removal, hence a mutation after the fetch began), yet
the result is still rendered — the output is non-empty even though the
buffer at apply time differs from the buffer captured at fetch time.  This
refutes the claim that any buffer mutation after the fetch starts causes
the result to be silently discarded. -/
theorem c1_staleness_counterexample :
    processCompletionRender ['e', 'x'] "grey30" (fun s => s) false ['e'] ≠ [] ∧
    (['e'] : List Char) ≠ ['e', 'x'] := by
  decide

/-- C1 amended: a completion result is rendered exactly when the session is
not exiting and the buffer at apply time is no longer than the length
stamped in the packet.  Only growth of the buffer after the stamp was taken
suppresses rendering; removals and same-length changes are still rendered. -/
theorem c1_render_gated_by_length_growth_only
    (b0 : List Char) (shade : String) (f : String → String) (ex : Bool)
    (b1 : List Char) :
    processCompletionRender b0 shade f ex b1 ≠ [] ↔
      ex = false ∧ b1.length ≤ b0.length := by
  cases ex <;> simp [processCompletionRender, complete]

/-!
The `fetchInProgress` protocol of `DynamicInput._process_completion` in
`src/dynamicio.py`:

    if self.fetchInProgress: return
    self.fetchInProgress = True
    self.completion = CompletionPacket(call_to(...), shade, len(buffer))
    if not self.exit: complete(...)
    self.fetchInProgress = False

Each spawned thread runs this body.  The guard read and the flag write are
two separate steps that other threads can interleave between, so the
protocol is modelled as a transition system over the shared flag and the
program counters of two would-be fetch tasks (one for the debounce
scheduler, one for the bind-key fast path).  A thread whose callback raises
dies without ever reaching the final line, so the flag is not cleared on
that path.
-/

/-- Program counter of one fetch task running `_process_completion`:
`ready` is before the `fetchInProgress` guard, `passedCheck` is after
reading the flag as clear but before setting it, `inFlight` is while the
callback/render body runs with the flag set, `done` is after returning
(whether it bailed at the guard, finished, or died on an exception). -/
inductive FetchPhase where
  | ready
  | passedCheck
  | inFlight
  | done
  deriving Repr, DecidableEq, Fintype

/-- Shared state of the fetch protocol: the `fetchInProgress` flag and the
phases of two potential fetch tasks. -/
structure FetchSystem where
  flag : Bool
  task0 : FetchPhase
  task1 : FetchPhase
  deriving Repr, DecidableEq, Fintype

/-- Phase of the task selected by the Boolean index. -/
def phaseOf (s : FetchSystem) (i : Bool) : FetchPhase :=
  if i then s.task1 else s.task0

/-- Replace the phase of the task selected by the Boolean index. -/
def withPhase (s : FetchSystem) (i : Bool) (p : FetchPhase) : FetchSystem :=
  if i then { s with task1 := p } else { s with task0 := p }

/-- One interleaved step of the source's protocol: `check` executes the
`if self.fetchInProgress: return` line, `setFlag` executes
`self.fetchInProgress = True`, `finishOk` executes the final
`self.fetchInProgress = False` after a successful body, and `finishErr` is
the thread dying on a callback exception — it leaves the flag untouched
because the source has no try/finally around the body. -/
inductive FetchStep where
  | check (i : Bool)
  | setFlag (i : Bool)
  | finishOk (i : Bool)
  | finishErr (i : Bool)
  deriving Repr, DecidableEq

/-- Transition function of the interleaved protocol, directly mirroring the
four lines quoted above. -/
def fetchStep (s : FetchSystem) : FetchStep → FetchSystem
  | .check i =>
      if phaseOf s i = .ready then
        if s.flag then withPhase s i .done else withPhase s i .passedCheck
      else s
  | .setFlag i =>
      if phaseOf s i = .passedCheck then
        { withPhase s i .inFlight with flag := true }
      else s
  | .finishOk i =>
      if phaseOf s i = .inFlight then
        { withPhase s i .done with flag := false }
      else s
  | .finishErr i =>
      if phaseOf s i = .inFlight then withPhase s i .done else s

/-- Run a schedule (an interleaving of task steps) from a state. -/
def runFetch (s : FetchSystem) (steps : List FetchStep) : FetchSystem :=
  steps.foldl fetchStep s

/-- Number of tasks currently in flight (executing the callback/render body
with the flag set). -/
def inFlightCount (s : FetchSystem) : Nat :=
  (if s.task0 = .inFlight then 1 else 0) + (if s.task1 = .inFlight then 1 else 0)

/-- Initial state: flag clear, both tasks about to run the guard. -/
def fetchInit : FetchSystem := ⟨false, .ready, .ready⟩

/-- C2 counterexample: the interleaving in which both tasks read the flag
as clear before either sets it puts two fetches in flight at once, and a
task whose callback raises leaves the flag set forever with no fetch in
flight.  This refutes both halves of the claim: mutual exclusion does not
hold for every interleaving, and the flag is not cleared when the callback
fails. -/
theorem c2_mutual_exclusion_counterexample :
    inFlightCount
      (runFetch fetchInit
        [.check false, .check true, .setFlag false, .setFlag true]) = 2 ∧
    (runFetch fetchInit [.check false, .setFlag false, .finishErr false]).flag
      = true ∧
    inFlightCount
      (runFetch fetchInit [.check false, .setFlag false, .finishErr false]) = 0 := by
  decide

/-- Coarse-grained step in which a task's guard read and flag write execute
as one atomic test-and-set (no other step can interleave between them);
completion steps are as in the source: `finishOk` clears the flag,
`finishErr` (callback exception) leaves it set. -/
inductive AtomicFetchStep where
  | tryStart (i : Bool)
  | finishOk (i : Bool)
  | finishErr (i : Bool)
  deriving Repr, DecidableEq, Fintype

/-- Transition function of the coarse-grained protocol. -/
def atomicFetchStep (s : FetchSystem) : AtomicFetchStep → FetchSystem
  | .tryStart i =>
      if phaseOf s i = .ready then
        if s.flag then withPhase s i .done
        else { withPhase s i .inFlight with flag := true }
      else s
  | .finishOk i =>
      if phaseOf s i = .inFlight then
        { withPhase s i .done with flag := false }
      else s
  | .finishErr i =>
      if phaseOf s i = .inFlight then withPhase s i .done else s

/-- Run a schedule of coarse-grained steps. -/
def runAtomicFetch (s : FetchSystem) (steps : List AtomicFetchStep) : FetchSystem :=
  steps.foldl atomicFetchStep s

/-- Invariant tying the in-flight count to the flag: at most one task is in
flight, and only while the flag is set. -/
def FetchInv (s : FetchSystem) : Prop :=
  inFlightCount s ≤ (if s.flag then 1 else 0)

instance (s : FetchSystem) : Decidable (FetchInv s) :=
  inferInstanceAs (Decidable (inFlightCount s ≤ (if s.flag then 1 else 0)))

/-- Every coarse-grained step preserves the invariant (finite check over
all 32 states and 6 step kinds). -/
lemma atomic_fetchInv_step :
    ∀ (s : FetchSystem) (a : AtomicFetchStep),
      FetchInv s → FetchInv (atomicFetchStep s a) := by
  decide

/-- The invariant holds along every coarse-grained schedule. -/
lemma runAtomicFetch_inv :
    ∀ (steps : List AtomicFetchStep) (s : FetchSystem),
      FetchInv s → FetchInv (runAtomicFetch s steps)
  | [], _, h => h
  | a :: as, s, h =>
      runAtomicFetch_inv as (atomicFetchStep s a) (atomic_fetchInv_step s a h)

/-- C2 amended: when each task's flag check and flag set execute as one
atomic step, every interleaving keeps at most one fetch in flight; and the
task clears the flag only on normal completion — a callback failure leaves
the flag exactly as it was (set). -/
theorem c2_atomic_mutual_exclusion :
    (∀ steps : List AtomicFetchStep,
        inFlightCount (runAtomicFetch fetchInit steps) ≤ 1) ∧
    (∀ (s : FetchSystem) (i : Bool),
        phaseOf s i = .inFlight →
          (atomicFetchStep s (.finishOk i)).flag = false ∧
          (atomicFetchStep s (.finishErr i)).flag = s.flag) := by
  constructor
  · intro steps
    have h := runAtomicFetch_inv steps fetchInit (by decide)
    unfold FetchInv at h
    split at h <;> omega
  · decide

/-- C2 witness: the amended theorem applied to a concrete schedule and a
concrete in-flight state. -/
theorem c2_atomic_mutual_exclusion_witness :
    inFlightCount
      (runAtomicFetch fetchInit [.tryStart false, .tryStart true, .finishOk false])
      ≤ 1 ∧
    (atomicFetchStep ⟨true, .inFlight, .ready⟩ (.finishOk false)).flag = false ∧
    (atomicFetchStep ⟨true, .inFlight, .ready⟩ (.finishErr false)).flag = true :=
  ⟨c2_atomic_mutual_exclusion.1 [.tryStart false, .tryStart true, .finishOk false],
   (c2_atomic_mutual_exclusion.2 ⟨true, .inFlight, .ready⟩ false rfl).1,
   (c2_atomic_mutual_exclusion.2 ⟨true, .inFlight, .ready⟩ false rfl).2⟩

/-!
Session state and the key handlers of `DynamicInput` in `src/dynamicio.py`.
The mutable attributes used by the key handlers are `self.buffer` (a list
of characters), `self.completion` (a `CompletionPacket`) and `self.exit`;
each handler returns the value the loop assigns to `called` ('EXIT',
'CONTINUE', or a truthiness used as a Boolean), plus the terminal output it
performs.
-/

/-- Session attributes of `DynamicInput` read and written by the key
handlers in `src/dynamicio.py`. -/
structure Session where
  buffer : List Char
  completion : CompletionPacket
  exit : Bool
  deriving Repr, DecidableEq

/-- Value a key handler returns to the loop: the strings 'EXIT' and
'CONTINUE', or the truthiness the loop stores into `called` (`True`,
`False`, and `None` collapse to a Boolean). -/
inductive HandlerResult where
  | exitResult
  | continueResult
  | changed (b : Bool)
  deriving Repr, DecidableEq

/-- Embedding of `DynamicInput._handle_enter`: on an empty buffer with
`allow_empty_input` false it returns 'CONTINUE' and does nothing;
otherwise it sets `exit`, clears the completion display (ESC[K) and prints
the end sequence, returning 'EXIT'. -/
def handle_enter (allow_empty_input : Bool) (endSeq : String) (s : Session) :
    Session × HandlerResult × List TermOp :=
  if !allow_empty_input && s.buffer.isEmpty then (s, .continueResult, [])
  else ({ s with exit := true }, .exitResult, [.clearToEnd, .write endSeq])

/-- Embedding of `DynamicInput._handle_backspace`: on a non-empty buffer it
emits cursor-back-and-delete, pops the last character and returns `True`;
on an empty buffer it does nothing and returns `None` (falsy). -/
def handle_backspace (s : Session) : Session × HandlerResult × List TermOp :=
  if s.buffer.isEmpty then (s, .changed false, [])
  else ({ s with buffer := s.buffer.dropLast }, .changed true, [.cursorBackDelete])

/-- Embedding of `DynamicInput._handle_tab` in `src/dynamicio.py`: if the
cached completion text is non-empty it is printed, appended to the buffer
and the cache content is cleared; otherwise `indent` spaces are printed.
Either way the handler returns `False`. -/
def handle_tab (indent : Nat) (s : Session) : Session × HandlerResult × List TermOp :=
  if s.completion.content ≠ "" then
    ({ s with buffer := s.buffer ++ s.completion.content.toList,
              completion := { s.completion with content := "" } },
     .changed false, [.write s.completion.content])
  else
    (s, .changed false, [.write (String.mk (List.replicate indent ' '))])

/-- Embedding of `DynamicInput._handle_regular`: the key is appended to the
buffer and echoed; the handler returns `True`. -/
def handle_regular (c : Char) (s : Session) : Session × HandlerResult × List TermOp :=
  ({ s with buffer := s.buffer ++ [c] }, .changed true, [.write (String.mk [c])])

/-- A key as classified by the loop's handler table `self.handlers` (tab,
enter, backspace) with every other character handled by `_handle_regular`. -/
inductive Key where
  | tab
  | enter
  | backspace
  | regular (c : Char)
  deriving Repr, DecidableEq

/-- The handler-table dispatch of the loop body in `DynamicInput.input`
(`src/dynamicio.py` lines 129-140), excluding the bind-key fast path which
is modelled in the full loop below. -/
def dispatch (allow_empty_input : Bool) (endSeq : String) (indent : Nat)
    (k : Key) (s : Session) : Session × HandlerResult × List TermOp :=
  match k with
  | .enter => handle_enter allow_empty_input endSeq s
  | .backspace => handle_backspace s
  | .tab => handle_tab indent s
  | .regular c => handle_regular c s

/-- The `while True` loop of `DynamicInput.input` restricted to its key
dispatch: a response of 'EXIT' breaks the loop and the method returns
`''.join(self.buffer)`; any other response continues with the mutated
session.  `none` means the key sequence ran out without the loop
terminating. -/
def runKeys (allow_empty_input : Bool) (endSeq : String) (indent : Nat) :
    Session → List Key → Option String
  | _, [] => none
  | s, k :: ks =>
      match dispatch allow_empty_input endSeq indent k s with
      | (s1, .exitResult, _) => some (String.mk s1.buffer)
      | (s1, .continueResult, _) => runKeys allow_empty_input endSeq indent s1 ks
      | (s1, .changed _, _) => runKeys allow_empty_input endSeq indent s1 ks

/-- Session state at the start of `DynamicInput.input`: empty buffer, the
empty completion packet set by `__init__`, and the `exit` flag reset. -/
def initSession : Session := ⟨[], ⟨"", "", 0⟩, false⟩

/-- Pressing Enter on an empty buffer with `allow_empty_input` false leaves
the session untouched for any number of presses. -/
lemma runKeys_enter_empty (endSeq : String) (indent : Nat) (s : Session)
    (h : s.buffer = []) :
    ∀ n, runKeys false endSeq indent s (List.replicate n .enter) = none := by
  intro n
  induction n with
  | zero => rfl
  | succ m ih =>
      simp only [List.replicate_succ, runKeys, dispatch, handle_enter, h]
      exact ih

/-- C8: appending a regular character and then applying the backspace
handler restores the buffer to its prior contents, for every session state
and every character. -/
theorem c8_append_then_backspace_roundtrip (s : Session) (c : Char) :
    (handle_backspace (handle_regular c s).1).1.buffer = s.buffer := by
  simp [handle_regular, handle_backspace]

/-- C4: the Enter transitions of the dispatcher and the loop.  On an empty
buffer with `allow_empty_input` false, Enter yields 'CONTINUE' with no
mutation and no output, and any number of Enter presses never terminates
the loop; on a non-empty buffer, or with `allow_empty_input` true, Enter
sets the `exit` flag, clears the completion display, prints the end
sequence and yields 'EXIT'; 'EXIT' is produced by no other key; and a
terminated loop returns the final buffer contents (here: one typed
character followed by Enter returns that character). -/
theorem c4_enter_transitions :
    (∀ (s : Session) (endSeq : String) (indent : Nat),
        s.buffer = [] →
          handle_enter false endSeq s = (s, .continueResult, []) ∧
          (∀ n, runKeys false endSeq indent s (List.replicate n .enter) = none)) ∧
    (∀ (s : Session) (allow : Bool) (endSeq : String),
        (s.buffer ≠ [] ∨ allow = true) →
          handle_enter allow endSeq s =
            ({ s with exit := true }, .exitResult, [.clearToEnd, .write endSeq])) ∧
    (∀ (allow : Bool) (endSeq : String) (indent : Nat) (k : Key) (s : Session),
        (dispatch allow endSeq indent k s).2.1 = .exitResult → k = .enter) ∧
    (∀ (c : Char) (endSeq : String) (indent : Nat),
        runKeys false endSeq indent initSession [.regular c, .enter] =
          some (String.mk [c])) := by
  refine ⟨?_, ?_, ?_, ?_⟩
  · intro s endSeq indent h
    exact ⟨by simp [handle_enter, h], runKeys_enter_empty endSeq indent s h⟩
  · intro s allow endSeq h
    rcases h with h | h
    · simp [handle_enter, List.isEmpty_iff, h]
    · simp [handle_enter, h]
  · intro allow endSeq indent k s h
    cases k with
    | enter => rfl
    | tab =>
        simp only [dispatch, handle_tab] at h
        split at h <;> simp at h
    | backspace =>
        simp only [dispatch, handle_backspace] at h
        split at h <;> simp at h
    | regular c => simp [dispatch, handle_regular] at h
  · intro c endSeq indent
    rfl

/-- C4 witness: the Enter transitions at concrete states — three Enter
presses on the fresh empty session continue it, Enter with empty input
allowed exits it, and typing one character then Enter returns that
character. -/
theorem c4_enter_transitions_witness :
    handle_enter false "\n" initSession = (initSession, .continueResult, []) ∧
    runKeys false "\n" 4 initSession (List.replicate 3 .enter) = none ∧
    handle_enter true "\n" initSession =
      ({ initSession with exit := true }, .exitResult, [.clearToEnd, .write "\n"]) ∧
    runKeys false "\n" 4 initSession [.regular 'a', .enter] =
      some (String.mk ['a']) :=
  ⟨(c4_enter_transitions.1 initSession "\n" 4 rfl).1,
   (c4_enter_transitions.1 initSession "\n" 4 rfl).2 3,
   c4_enter_transitions.2.1 initSession true "\n" (Or.inr rfl),
   c4_enter_transitions.2.2.2 'a' "\n" 4⟩

/-- Session used in the C5 counterexample: a completion fetched when the
buffer was empty (`bufferlenght` 0) is still cached while the buffer has
since grown to two characters. -/
def tabStaleSession : Session := ⟨['a', 'b'], ⟨"x", "grey30", 0⟩, false⟩

/-- C5 counterexample: the cached completion's recorded buffer length (0)
differs from the current buffer length (2), so by the claim Tab must not
append it — yet `_handle_tab` appends it anyway, because the source checks
only that the cached text is non-empty and never compares generations. -/
theorem c5_tab_counterexample :
    (handle_tab 4 tabStaleSession).1.buffer = ['a', 'b', 'x'] ∧
    tabStaleSession.completion.bufferlenght ≠ tabStaleSession.buffer.length := by
  decide

/-- C5 amended: Tab appends the cached completion text whenever it is
non-empty, with no comparison against the current buffer state; it then
clears the cache content and returns `False` (so Tab does not re-arm the
debounce).  When the cached text is empty, Tab prints `indent` spaces and
leaves the buffer and cache untouched. -/
theorem c5_tab_applies_any_cached_completion :
    ∀ (indent : Nat) (s : Session),
      (s.completion.content ≠ "" →
        handle_tab indent s =
          ({ s with buffer := s.buffer ++ s.completion.content.toList,
                    completion := { s.completion with content := "" } },
           .changed false, [.write s.completion.content])) ∧
      (s.completion.content = "" →
        handle_tab indent s =
          (s, .changed false, [.write (String.mk (List.replicate indent ' '))])) := by
  intro indent s
  constructor <;> intro h <;> simp [handle_tab, h]

/-- C5 witness: the amended theorem applied at the stale-cache session (the
non-empty branch) and at the fresh session (the empty branch). -/
theorem c5_tab_applies_any_cached_completion_witness :
    handle_tab 4 tabStaleSession =
      ({ tabStaleSession with
          buffer := tabStaleSession.buffer ++ tabStaleSession.completion.content.toList,
          completion := { tabStaleSession.completion with content := "" } },
       .changed false, [.write tabStaleSession.completion.content]) ∧
    handle_tab 4 initSession =
      (initSession, .changed false, [.write (String.mk (List.replicate 4 ' '))]) :=
  ⟨(c5_tab_applies_any_cached_completion 4 tabStaleSession).1 (by decide),
   (c5_tab_applies_any_cached_completion 4 initSession).2 rfl⟩

/-!
The edit channel: `DynamicInput.snapshot`, `DynamicInput._edit` and
`DynamicInput.edit` in `src/dynamicio.py`.  `_edit` moves the cursor to the
snapshot coordinates, emits ESC[nD ESC[K (move `returnRange` columns left
and clear to end of line), reassigns `self.buffer = self.buffer[returnRange:]`
and prints the new text, appending it to the buffer.  To compare the buffer
with what the terminal shows, a one-line screen is modelled as its content
and a cursor column, and the emitted operations are interpreted on it.
-/

/-- A one-line terminal screen: the characters on the line and the cursor's
zero-based column. -/
structure ScreenLine where
  content : List Char
  cursor : Nat
  deriving Repr, DecidableEq

/-- Interpretation of a terminal operation on a one-line screen.  `moveTo`
places the cursor at the one-based column of the snapshot, `moveLeft` moves
it left, `clearToEnd` erases from the cursor to the end of the line, and a
write overwrites characters at the cursor; cursor-visibility and
save/restore operations do not change the line. -/
def applyOp (l : ScreenLine) : TermOp → ScreenLine
  | .moveTo _ col => { l with cursor := col - 1 }
  | .moveLeft n => { l with cursor := l.cursor - n }
  | .clearToEnd => { l with content := l.content.take l.cursor }
  | .write s =>
      { content :=
          l.content.take l.cursor ++ s.toList ++ l.content.drop (l.cursor + s.length),
        cursor := l.cursor + s.length }
  | .writeStyled _ s =>
      { content :=
          l.content.take l.cursor ++ s.toList ++ l.content.drop (l.cursor + s.length),
        cursor := l.cursor + s.length }
  | _ => l

/-- Apply a list of terminal operations to a screen line in order. -/
def applyOps (l : ScreenLine) (ops : List TermOp) : ScreenLine :=
  ops.foldl applyOp l

/-- Terminal operations emitted by `DynamicInput._edit`, in source order:
hide cursor, jump to the snapshot coordinates, move `returnRange` columns
left and clear to the end of the line, print the new text, show cursor. -/
def editOps (returnRange : Nat) (text : String) (coords : Nat × Nat) : List TermOp :=
  [.hideCursor, .moveTo coords.1 coords.2, .moveLeft returnRange, .clearToEnd,
   .write text, .showCursor]

/-- The buffer update performed by `DynamicInput._edit`:
`self.buffer = self.buffer[returnRange:]` followed by
`self.buffer += list(text)` — the first `returnRange` characters are
dropped and the new text is appended. -/
def editBuffer (buffer : List Char) (returnRange : Nat) (text : String) : List Char :=
  buffer.drop returnRange ++ text.toList

/-- C3: evaluation of `_edit` at the failing input — buffer "abcde",
`returnRange` 2, new text "XY", cursor snapshot at the end of the line
(row 1, one-based column 6).  The source's buffer update drops the two
leading characters, yielding "cdeXY", while its own terminal operations
rewrite the two trailing characters, so the screen shows "abcXY"; the
buffer and the displayed line disagree, and neither the buffer nor the
claimed trailing replacement "abcXY" is what the buffer holds. -/
theorem c3_edit_drops_leading_characters :
    editBuffer "abcde".toList 2 "XY" = "cdeXY".toList ∧
    (applyOps ⟨"abcde".toList, 5⟩ (editOps 2 "XY" (1, 6))).content = "abcXY".toList ∧
    editBuffer "abcde".toList 2 "XY" ≠
      (applyOps ⟨"abcde".toList, 5⟩ (editOps 2 "XY" (1, 6))).content := by
  decide

/-- A scheduled asynchronous edit: the arguments `DynamicInput.edit` hands
to the background thread running `_edit`. -/
structure EditRequest where
  returnRange : Nat
  text : String
  coords : Nat × Nat
  deriving Repr, DecidableEq

/-- The usage error of `DynamicInput.edit`: `ValueError("Cannot edit with
an empty string.")`. -/
inductive UsageError where
  | emptyEditText
  deriving Repr, DecidableEq

/-- Embedding of the public `DynamicInput.edit`: with empty replacement
text it raises the usage error, otherwise it schedules `_edit` with the
given arguments on a background thread. -/
def edit (returnRange : Nat) (new_text : String) (coords : Nat × Nat) :
    Except UsageError EditRequest :=
  if new_text = "" then .error .emptyEditText
  else .ok ⟨returnRange, new_text, coords⟩

/-- The synchronous part of a call to `DynamicInput.edit` as observed from
the session: `edit` itself touches neither the session attributes nor the
terminal (all of that happens later in the scheduled thread), so the call
returns the session unchanged, no output, and either the usage error or
the scheduled request. -/
def editCall (s : Session) (returnRange : Nat) (new_text : String)
    (coords : Nat × Nat) :
    Session × List TermOp × Except UsageError EditRequest :=
  (s, [], edit returnRange new_text coords)

/-- C7: calling `edit` with empty replacement text raises the usage error
synchronously, schedules nothing, and leaves the session and terminal
unchanged; with non-empty text no error is raised and the edit is
scheduled with exactly the supplied arguments. -/
theorem c7_edit_empty_text_usage_error :
    ∀ (s : Session) (r : Nat) (t : String) (c : Nat × Nat),
      (editCall s r t c).1 = s ∧
      (editCall s r t c).2.1 = [] ∧
      (t = "" → (editCall s r t c).2.2 = .error .emptyEditText) ∧
      (t ≠ "" → (editCall s r t c).2.2 = .ok ⟨r, t, c⟩) := by
  intro s r t c
  refine ⟨rfl, rfl, ?_, ?_⟩ <;> intro h <;> simp [editCall, edit, h]

/-- C7 witness: the theorem applied at the empty replacement text and at
the spec's scenario text "EXIT". -/
theorem c7_edit_empty_text_usage_error_witness :
    (editCall initSession 2 "" (1, 3)).2.2 = .error .emptyEditText ∧
    (editCall initSession 4 "EXIT" (1, 5)).2.2 = .ok ⟨4, "EXIT", (1, 5)⟩ :=
  ⟨(c7_edit_empty_text_usage_error initSession 2 "" (1, 3)).2.2.1 rfl,
   (c7_edit_empty_text_usage_error initSession 4 "EXIT" (1, 5)).2.2.2 (by decide)⟩

/-!
Session-start validation.  `DynamicInput.input` in `src/dynamicio.py`
raises `KeyError("config_bind must be a single character.")` when
`config_bind` is longer than one character, before the prompt is printed
and before the polling loop reads any key.  The legacy `DynamicInput.input`
in `src/main.py` raises `ValueError("Please provide a call_to function.")`
when no completion callback is supplied, likewise before the loop.  The
spec's error taxonomy groups both as ConfigurationError.
-/

/-- The configuration errors raised at session start: the over-long bind
key (dynamicio) and the missing completion callback (main.py). -/
inductive ConfigError where
  | bindKeyTooLong
  | missingCallback
  deriving Repr, DecidableEq

/-- Session start of `DynamicInput.input` in `src/dynamicio.py`: the bind
key is validated before the loop; only if it passes does the loop run on
the key sequence. -/
def dynamicioInputStart (allow_empty_input : Bool) (endSeq : String) (indent : Nat)
    (config_bind : Option String) (keys : List Key) :
    Except ConfigError (Option String) :=
  match config_bind with
  | some b =>
      if b.length > 1 then .error .bindKeyTooLong
      else .ok (runKeys allow_empty_input endSeq indent initSession keys)
  | none => .ok (runKeys allow_empty_input endSeq indent initSession keys)

/-- Session attributes of the legacy `DynamicInput` in `src/main.py`: the
buffer, the cached completion (a plain string there), and the exit flag. -/
structure MainSession where
  buffer : List Char
  completion : String
  exit : Bool
  deriving Repr, DecidableEq

/-- One key of the inline dispatch in the `src/main.py` loop body:
backspace pops when possible, Enter continues on disallowed empty input and
otherwise exits, Tab appends a non-empty cached completion (without
clearing the cache) or prints spaces, and any other key is appended and
echoed. -/
def mainStep (allow_empty_input : Bool) (endSeq : String) (indent : Nat)
    (k : Key) (s : MainSession) : MainSession × HandlerResult × List TermOp :=
  match k with
  | .backspace =>
      if s.buffer.isEmpty then (s, .changed false, [])
      else ({ s with buffer := s.buffer.dropLast }, .changed true, [.cursorBackDelete])
  | .enter =>
      if !allow_empty_input && s.buffer.isEmpty then (s, .continueResult, [])
      else ({ s with exit := true }, .exitResult, [.clearToEnd, .write endSeq])
  | .tab =>
      if s.completion ≠ "" then
        ({ s with buffer := s.buffer ++ s.completion.toList },
         .changed false, [.write s.completion])
      else (s, .changed false, [.write (String.mk (List.replicate indent ' '))])
  | .regular c =>
      ({ s with buffer := s.buffer ++ [c] }, .changed true, [.write (String.mk [c])])

/-- The `src/main.py` loop restricted to its key dispatch, returning the
joined buffer when Enter exits and `none` when the keys run out. -/
def mainRunKeys (allow_empty_input : Bool) (endSeq : String) (indent : Nat) :
    MainSession → List Key → Option String
  | _, [] => none
  | s, k :: ks =>
      match mainStep allow_empty_input endSeq indent k s with
      | (s1, .exitResult, _) => some (String.mk s1.buffer)
      | (s1, .continueResult, _) => mainRunKeys allow_empty_input endSeq indent s1 ks
      | (s1, .changed _, _) => mainRunKeys allow_empty_input endSeq indent s1 ks

/-- Fresh legacy session as set up by `__init__` and the start of `input`
in `src/main.py`. -/
def mainInit : MainSession := ⟨[], "", false⟩

/-- Session start of the legacy `DynamicInput.input` in `src/main.py`: the
callback is validated before the loop; only if it is present does the loop
run on the key sequence. -/
def mainInputStart (allow_empty_input : Bool) (endSeq : String) (indent : Nat)
    (call_to : Option (String → String)) (keys : List Key) :
    Except ConfigError (Option String) :=
  match call_to with
  | none => .error .missingCallback
  | some _ => .ok (mainRunKeys allow_empty_input endSeq indent mainInit keys)

/-- C6: a bind key longer than one character makes the dynamicio session
start fail with the configuration error for every key sequence — so before
any key is read — and starting the legacy session without a completion
callback fails with the configuration error for every key sequence,
likewise at session start and never mid-loop. -/
theorem c6_configuration_errors_at_start :
    (∀ (b : String) (allow : Bool) (endSeq : String) (indent : Nat)
        (keys : List Key),
        b.length > 1 →
          dynamicioInputStart allow endSeq indent (some b) keys =
            .error .bindKeyTooLong) ∧
    (∀ (allow : Bool) (endSeq : String) (indent : Nat) (keys : List Key),
        mainInputStart allow endSeq indent none keys = .error .missingCallback) := by
  constructor
  · intro b allow endSeq indent keys h
    simp [dynamicioInputStart, h]
  · intro allow endSeq indent keys
    rfl

/-- C6 witness: the two-character bind key "ab" fails a dynamicio session
start on a non-empty key sequence, and the legacy session start without a
callback fails on the same key sequence. -/
theorem c6_configuration_errors_at_start_witness :
    dynamicioInputStart true "\n" 4 (some "ab") [.regular 'a', .enter] =
      .error .bindKeyTooLong ∧
    mainInputStart true "\n" 4 none [.regular 'a', .enter] =
      .error .missingCallback :=
  ⟨c6_configuration_errors_at_start.1 "ab" true "\n" 4 [.regular 'a', .enter]
      (by decide),
   c6_configuration_errors_at_start.2 true "\n" 4 [.regular 'a', .enter]⟩

/-!
The full polling loop of `DynamicInput.input` in `src/dynamicio.py`.  Each
iteration first evaluates the inactivity guard

    if len(delay_buffer) > 5 and called and call_to is not None
       and inactivity_trigger and difference > time_buffer:

which, when true, recomputes `time_buffer` as the average recorded delay,
launches a completion fetch (or a raw `call_to` thread when `autocomplete`
is false) and resets `called`.  Then, if a key is ready, its inter-key
delay is appended to `delay_buffer`; the bind key (when configured and a
callback is present) optionally echoes and launches its own fetch,
bypassing the handlers; every other key goes through the handler table.
Wall-clock timestamps are supplied as an oracle: each loop tick carries the
`difference` the loop would compute and the key it would read (if any).
-/

/-- The configuration arguments of `DynamicInput.input` that steer the
loop (`call_to` is abstracted to its presence, which is all the guard
tests). -/
structure LoopConfig where
  call_to_present : Bool
  inactivity_trigger : Bool
  autocomplete : Bool
  config_bind : Option Char
  output_bind : Bool
  allow_empty_input : Bool
  endSeq : String
  indent : Nat
  deriving Repr

/-- The loop-local state of `DynamicInput.input` plus counters recording
which path launched how many background calls: `debounceFetches` counts
launches by the inactivity guard, `bindFetches` those by the bind-key fast
path. -/
structure LoopState where
  session : Session
  delay_buffer : List Rat
  called : Bool
  time_buffer : Rat
  debounceFetches : Nat
  bindFetches : Nat
  finished : Bool
  deriving Repr

/-- Average of the recorded delays, as computed by
`sum(delay_buffer) / len(delay_buffer)`. -/
def avgDelay (l : List Rat) : Rat := l.sum / (l.length : Rat)

/-- The inactivity guard of the loop, conjunct for conjunct. -/
def debounceGuard (cfg : LoopConfig) (st : LoopState) (difference : Rat) : Bool :=
  decide (st.delay_buffer.length > 5) && st.called && cfg.call_to_present &&
    cfg.inactivity_trigger && decide (difference > st.time_buffer)

/-- The guard body: recompute `time_buffer`, launch the fetch, reset
`called`.  When the guard is false the state is unchanged. -/
def debouncePhase (cfg : LoopConfig) (st : LoopState) (difference : Rat) :
    LoopState :=
  if debounceGuard cfg st difference then
    { st with time_buffer := avgDelay st.delay_buffer,
              debounceFetches := st.debounceFetches + 1,
              called := false }
  else st

/-- Classification of a raw character by the handler table of the loop. -/
def keyOfChar (c : Char) : Key :=
  if c = '\t' then .tab
  else if c = '\r' then .enter
  else if c = '\x08' then .backspace
  else .regular c

/-- The key-processing part of one loop iteration: the delay is recorded,
then either the bind-key fast path launches a fetch (echoing and appending
the key when `output_bind` is set) or the key is dispatched through the
handler table, updating `called` from the response and finishing the loop
on 'EXIT'. -/
def keyPhase (cfg : LoopConfig) (st : LoopState) (difference : Rat) :
    Option Char → LoopState
  | none => st
  | some c =>
      let st1 := { st with delay_buffer := st.delay_buffer ++ [difference] }
      if cfg.config_bind = some c && cfg.call_to_present then
        let st2 :=
          if cfg.output_bind then
            { st1 with session :=
                { st1.session with buffer := st1.session.buffer ++ [c] } }
          else st1
        { st2 with bindFetches := st2.bindFetches + 1 }
      else
        match dispatch cfg.allow_empty_input cfg.endSeq cfg.indent (keyOfChar c)
            st1.session with
        | (s1, .exitResult, _) => { st1 with session := s1, finished := true }
        | (s1, .continueResult, _) => { st1 with session := s1 }
        | (s1, .changed b, _) => { st1 with session := s1, called := b }

/-- One iteration of the `while True` loop: nothing happens once the loop
has finished; otherwise the inactivity guard runs first and then the key
(if any) is processed. -/
def loopTick (cfg : LoopConfig) (st : LoopState) (ev : Rat × Option Char) :
    LoopState :=
  if st.finished then st
  else keyPhase cfg (debouncePhase cfg st ev.1) ev.1 ev.2

/-- Run the loop over a sequence of ticks. -/
def runLoop (cfg : LoopConfig) (st : LoopState) (events : List (Rat × Option Char)) :
    LoopState :=
  events.foldl (loopTick cfg) st

/-- Loop state at the start of `DynamicInput.input`: fresh session, empty
delay buffer, `called` false, `time_buffer` zero, no fetches launched. -/
def initLoop : LoopState := ⟨initSession, [], false, 0, 0, 0, false⟩

/-- Number of ticks of a run that deliver a key. -/
def keyEventCount (events : List (Rat × Option Char)) : Nat :=
  (events.filter (fun e => e.2.isSome)).length

/-- The key-processing phase never touches the debounce-fetch counter. -/
lemma keyPhase_debounceFetches (cfg : LoopConfig) (st : LoopState)
    (difference : Rat) (k : Option Char) :
    (keyPhase cfg st difference k).debounceFetches = st.debounceFetches := by
  cases k with
  | none => rfl
  | some c =>
      simp only [keyPhase]
      split
      · split <;> rfl
      · split <;> rfl

/-- The key-processing phase grows the delay buffer by at most one entry
(exactly one when a key is delivered, none otherwise). -/
lemma keyPhase_delay_length (cfg : LoopConfig) (st : LoopState)
    (difference : Rat) (k : Option Char) :
    (keyPhase cfg st difference k).delay_buffer.length ≤
      st.delay_buffer.length + (if k.isSome then 1 else 0) := by
  cases k with
  | none => simp [keyPhase]
  | some c =>
      simp only [keyPhase, Option.isSome_some, if_pos]
      split
      · split <;> simp
      · split <;> simp_all

/-- When at most five delays are recorded, the inactivity guard is false
and the debounce phase is the identity. -/
lemma debouncePhase_of_le_five (cfg : LoopConfig) (st : LoopState)
    (difference : Rat) (h : st.delay_buffer.length ≤ 5) :
    debouncePhase cfg st difference = st := by
  have hg : debounceGuard cfg st difference = false := by
    unfold debounceGuard
    have : decide (st.delay_buffer.length > 5) = false := by
      simp
      omega
    simp [this]
  simp [debouncePhase, hg]

/-- With at most five recorded delays, one loop tick launches no debounce
fetch and grows the delay buffer by at most one entry. -/
lemma loopTick_of_le_five (cfg : LoopConfig) (st : LoopState)
    (ev : Rat × Option Char) (h : st.delay_buffer.length ≤ 5) :
    (loopTick cfg st ev).debounceFetches = st.debounceFetches ∧
    (loopTick cfg st ev).delay_buffer.length ≤
      st.delay_buffer.length + (if ev.2.isSome then 1 else 0) := by
  unfold loopTick
  split
  · constructor
    · rfl
    · split <;> simp
  · rw [debouncePhase_of_le_five cfg st ev.1 h]
    exact ⟨keyPhase_debounceFetches cfg st ev.1 ev.2,
           keyPhase_delay_length cfg st ev.1 ev.2⟩

/-- Generalized run lemma for C9: as long as the recorded delays plus the
keys still to come stay within five, the run launches no debounce fetch. -/
lemma runLoop_no_debounce (cfg : LoopConfig) :
    ∀ (events : List (Rat × Option Char)) (st : LoopState),
      st.delay_buffer.length + keyEventCount events ≤ 5 →
      (runLoop cfg st events).debounceFetches = st.debounceFetches
  | [], _, _ => rfl
  | ev :: evs, st, h => by
      have hst : st.delay_buffer.length ≤ 5 := by
        have : keyEventCount (ev :: evs) =
            (if ev.2.isSome then 1 else 0) + keyEventCount evs := by
          simp only [keyEventCount, List.filter]
          split <;> simp_all <;> omega
        omega
      have htick := loopTick_of_le_five cfg st ev hst
      have hcount : keyEventCount (ev :: evs) =
          (if ev.2.isSome then 1 else 0) + keyEventCount evs := by
        simp only [keyEventCount, List.filter]
        split <;> simp_all <;> omega
      have hrec : (loopTick cfg st ev).delay_buffer.length + keyEventCount evs ≤ 5 := by
        have := htick.2
        split at hcount <;> split at this <;> simp_all <;> omega
      have := runLoop_no_debounce cfg evs (loopTick cfg st ev) hrec
      calc (runLoop cfg st (ev :: evs)).debounceFetches
          = (runLoop cfg (loopTick cfg st ev) evs).debounceFetches := rfl
        _ = (loopTick cfg st ev).debounceFetches := this
        _ = st.debounceFetches := htick.1

/-- C9: the inactivity guard can only fire once more than five key delays
have been recorded, and a session in which five or fewer keys are pressed
never launches a debounce-path fetch, no matter how long the idle ticks
between and after the keys are. -/
theorem c9_debounce_needs_more_than_five_keys :
    (∀ (cfg : LoopConfig) (st : LoopState) (difference : Rat),
        debounceGuard cfg st difference = true → 5 < st.delay_buffer.length) ∧
    (∀ (cfg : LoopConfig) (events : List (Rat × Option Char)),
        keyEventCount events ≤ 5 →
        (runLoop cfg initLoop events).debounceFetches = 0) := by
  constructor
  · intro cfg st difference h
    unfold debounceGuard at h
    simp only [Bool.and_eq_true, decide_eq_true_eq] at h
    exact h.1.1.1.1
  · intro cfg events h
    have : (initLoop.delay_buffer.length + keyEventCount events) ≤ 5 := by
      simp only [initLoop, List.length_nil, Nat.zero_add]
      exact h
    exact runLoop_no_debounce cfg events initLoop this

/-- Loop configuration used in the C9 witness: callback present, inactivity
trigger and autocompletion enabled, no bind key. -/
def c9Config : LoopConfig := ⟨true, true, true, none, true, true, "\n", 4⟩

/-- Run used in the C9 witness: five typed characters followed by two long
idle ticks; a guard state with six recorded delays for the first part. -/
def c9Events : List (Rat × Option Char) :=
  [(0, some 'h'), (0, some 'e'), (0, some 'l'), (0, some 'l'), (0, some 'o'),
   (100, none), (200, none)]

/-- Guard state used in the C9 witness: six recorded delays, `called` set,
`time_buffer` zero. -/
def c9GuardState : LoopState :=
  ⟨initSession, [1, 1, 1, 1, 1, 1], true, 0, 0, 0, false⟩

/-- C9 witness: the guard fires at the six-delay state (so more than five
delays were recorded), and the five-key run with long idle ticks launches
no debounce fetch. -/
theorem c9_debounce_needs_more_than_five_keys_witness :
    5 < c9GuardState.delay_buffer.length ∧
    (runLoop c9Config initLoop c9Events).debounceFetches = 0 :=
  ⟨c9_debounce_needs_more_than_five_keys.1 c9Config c9GuardState 100 (by decide),
   c9_debounce_needs_more_than_five_keys.2 c9Config c9Events (by decide)⟩

/-!
The module-level convenience function `input` at the bottom of
`src/dynamicio.py` forwards to the method as

    DynamicInput().input(prompt, call_to, end=end, raw_call=raw_call,
                         inactivity_trigger=inactivity_trigger)

Python binds the keyword arguments against the method's parameter list
before the method body runs; a keyword that names no parameter raises
TypeError at the call, so the session never starts.  The binding step is
embedded below over the parameter names of `DynamicInput.input`.
-/

/-- The error Python raises when a call passes a keyword argument that the
callee's signature does not accept. -/
inductive CallError where
  | unexpectedKeyword (name : String)
  deriving Repr, DecidableEq

/-- The parameter names of `DynamicInput.input` in `src/dynamicio.py`
(lines 64-68). -/
def dynamicInputParams : List String :=
  ["prompt", "call_to", "end", "allow_empty_input", "shade", "indent",
   "config_bind", "autocomplete", "output_bind", "inactivity_trigger",
   "monitor_delay"]

/-- Python's keyword-binding check: each keyword must name a parameter of
the callee; the first that does not raises the unexpected-keyword error. -/
def bindKwargs (params : List String) : List String → Except CallError Unit
  | [] => .ok ()
  | k :: ks =>
      if params.contains k then bindKwargs params ks
      else .error (.unexpectedKeyword k)

/-- The keyword arguments the module-level `input` passes to
`DynamicInput.input`, in call order. -/
def moduleInputKwargs : List String := ["end", "raw_call", "inactivity_trigger"]

/-- Embedding of the module-level `input` in `src/dynamicio.py`: the call
into `DynamicInput.input` first binds its keyword arguments; only if that
succeeds would the session loop run on the key sequence. -/
def module_input (prompt : Option String) (call_to : Option (String → String))
    (endSeq : String) (raw_call : Bool) (inactivity_trigger : Bool)
    (keys : List Key) : Except CallError (Option String) :=
  match bindKwargs dynamicInputParams moduleInputKwargs with
  | .error e => .error e
  | .ok _ => .ok (runKeys true endSeq 4 initSession keys)

/-- C10: every call of the module-level `input` fails with the TypeError
for the unexpected keyword `raw_call`, whatever the argument values and
whatever keys would have been typed — `DynamicInput.input` accepts no
`raw_call` parameter, so the error is raised before any key is read. -/
theorem c10_module_input_always_type_error
    (prompt : Option String) (call_to : Option (String → String))
    (endSeq : String) (raw_call : Bool) (inactivity_trigger : Bool)
    (keys : List Key) :
    module_input prompt call_to endSeq raw_call inactivity_trigger keys =
      .error (.unexpectedKeyword "raw_call") := rfl
